import Mathlib

/-!
Verification of the research-and-write pipeline (main.py) against its
specification.  The Python source is shallowly embedded: each Python
function becomes a Lean definition over explicit models of the external
transports (HTTP responses, exceptions), so Python exceptions appear as
constructors of outcome types or as `Except.error`.
-/

namespace ResearchAgent

/-- Python `sub in s` on strings: `sub` occurs as a contiguous substring of
`s`.  Implemented by scanning every suffix of `s`. -/
def containsFrom (hay sub : List Char) : Bool :=
  match hay with
  | [] => sub.isEmpty
  | _ :: t => sub.isPrefixOf hay || containsFrom t sub

/-- Python `sub in s` (the `in` operator on `str`). -/
def pyContains (s sub : String) : Bool :=
  containsFrom s.toList sub.toList

/-- Python `s.startswith(pre)`. -/
def pyStartsWith (s pre : String) : Bool :=
  pre.toList.isPrefixOf s.toList

/-- Python `s[:n]`: the first `n` characters of `s`. -/
def pySlice (s : String) (n : Nat) : String :=
  String.mk (s.toList.take n)

/-- Python `s.lower()`, character by character. -/
def pyLower (s : String) : String :=
  String.mk (s.toList.map Char.toLower)

/-- Python `repr` of a list of strings, as produced by an f-string such as
`f"{e.options[:5]}"`. -/
def pyListRepr (xs : List String) : String :=
  "[" ++ String.intercalate ", " (xs.map fun s => "\x27" ++ s ++ "\x27") ++ "]"

/-! ## Completion Client (`call_groq_api`, main.py lines 86-166)

The HTTP transport is modelled explicitly.  A `requests.post` call either
raises (timeout, connection error, other request exception, any other
exception) or yields a response object carrying a status code, a raw body
text, and a `.json()` result that either raises `json.JSONDecodeError` or
yields a JSON value.  From that JSON value the code reads
`error.message` / `error.type` (the 400 path) and `choices` (the 200
path); absent fields are `Option.none`.  Each element of `choices` either
has the `message.content` path (its text) or raises `KeyError` when
indexed (the missing-field message is `str(e)`). -/

/-- One entry of the response JSON `choices` array, as the code consumes it
via `choices[0]["message"]["content"]`. -/
inductive ChoiceParse where
  | content (text : String)
  | keyError (msg : String)
  deriving Repr, DecidableEq

/-- The outcome of `response.json()`. -/
inductive JsonResult where
  | decodeError (msg : String)
  | value (errMessage : Option String) (errType : Option String)
      (choices : Option (List ChoiceParse)) (resultRepr : String)
  deriving Repr, DecidableEq

/-- A `requests` response object: status code, raw `.text`, and `.json()`. -/
structure HttpResponse where
  status_code : Nat
  text : String
  json : JsonResult
  deriving Repr, DecidableEq

/-- The outcome of the `requests.post` call inside `call_groq_api`,
including the exception classes caught at main.py lines 155-166. -/
inductive Transport where
  | resp (r : HttpResponse)
  | timeout
  | connectionError
  | requestException (msg : String)
  | otherException (msg : String)
  deriving Repr, DecidableEq

/-- The request body built at main.py lines 99-112: the prompt is cut to
its first 15000 characters plus a marker when over-long (lines 100-101),
and `max_tokens` is clamped by `min(max_tokens, 4000)` (line 108).  The
fixed `temperature=0.7`, `top_p=1.0`, `stream=False` fields carry no
claim-relevant content and are omitted. -/
structure RequestData where
  model : String
  messageContent : String
  max_tokens : Int
  deriving Repr, DecidableEq

def buildRequest (model_choice prompt : String) (max_tokens : Int) : RequestData :=
  { model := model_choice
    messageContent :=
      if prompt.length > 15000 then
        pySlice prompt 15000 ++ "\n\n[Content truncated due to length]"
      else prompt
    max_tokens := min max_tokens 4000 }

/-- The function `call_groq_api(prompt, max_tokens)` (main.py lines 86-166).  The
ambient globals `GROQ_API_KEY` and `model_choice` become parameters, and
the network's behaviour is the `transport` parameter (consulted only after
the credential checks succeed, mirroring lines 87-91 preceding the
`requests.post` at line 117). -/
def call_groq_api (apiKey : Option String) (model_choice : String)
    (prompt : String) (max_tokens : Int) (transport : Transport) : String :=
  match apiKey with
  | none => "Error: Groq API key not found."
  | some key =>
    if pyStartsWith key "gsk_" then
      let _data := buildRequest model_choice prompt max_tokens
      match transport with
      | .timeout => "Error: Request timed out. Groq API is taking too long to respond."
      | .connectionError => "Error: Cannot connect to Groq API. Check your internet connection."
      | .requestException msg => "Error: Network issue: " ++ msg
      | .otherException msg => "Error: Unexpected issue: " ++ msg
      | .resp r =>
        if r.status_code == 400 then
          match r.json with
          | .decodeError _ =>
            "Error 400: Invalid request format. Response: " ++ pySlice r.text 200
          | .value errMessage errType _ _ =>
            let error_message := errMessage.getD "Unknown 400 error"
            let error_type := errType.getD "Unknown type"
            if pyContains (pyLower error_message) "model" then
              "Error: Model \x27" ++ model_choice ++ "\x27 not available. Try: llama-3.1-8b-instant"
            else if pyContains (pyLower error_message) "token" then
              "Error: Token limit issue. " ++ error_message
            else if pyContains (pyLower error_message) "rate" then
              "Error: Rate limit exceeded. " ++ error_message
            else
              "Error 400: " ++ error_message ++ " (Type: " ++ error_type ++ ")"
        else if r.status_code == 401 then
          "Error 401: Invalid API key. Please check your Groq API key."
        else if r.status_code == 429 then
          "Error 429: Rate limit exceeded. Please wait a moment and try again."
        else if r.status_code != 200 then
          "Error " ++ toString r.status_code ++ ": " ++ pySlice r.text 300
        else
          match r.json with
          | .decodeError msg => "Error: Invalid JSON response from Groq API: " ++ msg
          | .value _ _ choices resultRepr =>
            match choices with
            | none => "Error: Unexpected response format: " ++ resultRepr
            | some [] => "Error: Unexpected response format: " ++ resultRepr
            | some (c :: _) =>
              match c with
              | .content text => text
              | .keyError msg => "Error: Missing field in API response: " ++ msg
    else
      "Error: Invalid Groq API key format. Key should start with \x27gsk_\x27"

/-! ## Context Gatherer (main.py lines 38-83 and 169-196) -/

/-- One entry of the Serper response's `organic` array after the
`.get(..., "")` defaulting of main.py lines 75-79. -/
structure SearchHit where
  title : String
  snippet : String
  link : String
  deriving Repr, DecidableEq

/-- Behaviour of one Serper search call: either the request succeeds and
the response JSON has (or lacks) an `organic` array, or some exception is
raised (`raise_for_status`, network failure, JSON decoding) — the code
catches them all at line 81. -/
inductive SearchOutcome where
  | ok (organic : Option (List SearchHit))
  | exn (msg : String)
  deriving Repr, DecidableEq

/-- The function `web_search(query, num_results)` (main.py lines 53-83): returns `[]`
when `SERPER_API_KEY` is unset (no network call), the `organic` hits on
success, `[]` when `organic` is absent, and `[]` on any exception. -/
def web_search (serperKey : Option String) (outcome : SearchOutcome) :
    List SearchHit :=
  match serperKey with
  | none => []
  | some _ =>
    match outcome with
    | .ok (some organic) => organic
    | .ok none => []
    | .exn _ => []

/-- Behaviour of the combined `wikipedia.summary` / `wikipedia.page`
lookup in `wikipedia_search`: success, `DisambiguationError` (with its
`options`), `PageError`, or any other exception the wikipedia library can
raise (network failures, other `WikipediaException`s) — the code catches
only the first two (main.py lines 47-50). -/
inductive WikiOutcome where
  | ok (summary : String) (url : String) (title : String)
  | disambiguation (options : List String)
  | pageError
  | otherError (msg : String)
  deriving Repr, DecidableEq

/-- Whether the lookup raises an exception other than the two caught ones. -/
def WikiOutcome.isOtherError : WikiOutcome → Bool
  | .otherError _ => true
  | _ => false

/-- The dict returned by `wikipedia_search`. -/
structure WikiInfo where
  summary : String
  url : String
  title : String
  deriving Repr, DecidableEq

/-- The function `wikipedia_search(topic)` (main.py lines 38-50).  An `Except.error`
models an uncaught exception propagating out of the function; only
`DisambiguationError` and `PageError` are caught. -/
def wikipedia_search (outcome : WikiOutcome) : Except String WikiInfo :=
  match outcome with
  | .ok summary url title => .ok ⟨summary, url, title⟩
  | .disambiguation options =>
    .ok ⟨"Multiple topics found: " ++ pyListRepr (options.take 5), "", ""⟩
  | .pageError => .ok ⟨"No Wikipedia page found for this topic.", "", ""⟩
  | .otherError msg => .error msg

/-- The three fixed query templates of main.py lines 173-177. -/
def search_queries (topic : String) : List String :=
  [topic ++ " latest developments 2024",
   topic ++ " trends applications",
   topic ++ " challenges opportunities future"]

/-- The `research_data` dict built at main.py lines 189-193. -/
structure ResearchData where
  web_results : List SearchHit
  wikipedia : WikiInfo
  search_queries : List String
  deriving Repr, DecidableEq

/-- The function `conduct_research(topic)` (main.py lines 169-196).  The three web
searches run first (each outcome supplied by `searchOutcomes`, keyed by
query; `web_search` never raises), then the Wikipedia lookup, whose
uncaught exceptions propagate.  The `time.sleep(1)` throttle has no
functional content and is not modelled. -/
def conduct_research (serperKey : Option String) (topic : String)
    (searchOutcomes : String → SearchOutcome) (wiki : WikiOutcome) :
    Except String ResearchData :=
  let all_results :=
    (search_queries topic).foldl
      (fun acc query => acc ++ web_search serperKey (searchOutcomes query)) []
  match wikipedia_search wiki with
  | .error e => .error e
  | .ok wiki_info => .ok ⟨all_results, wiki_info, search_queries topic⟩

/-! ## Pipeline stages (main.py lines 199-292)

Each stage builds an instruction prompt from typed context and calls the
Completion Client once.  The Python prompts are triple-quoted f-strings
whose lines are indented by four spaces; the text is reproduced, with
interpolations replaced by concatenation. -/

/-- The `web_context` block of main.py lines 203-206: the first 10 hits. -/
def web_context (research_data : ResearchData) : String :=
  String.intercalate "\n"
    ((research_data.web_results.take 10).map fun result =>
      "Title: " ++ result.title ++ "\nContent: " ++ result.snippet
        ++ "\nSource: " ++ result.link ++ "\n")

def wiki_context (research_data : ResearchData) : String :=
  "Wikipedia Summary: " ++ research_data.wikipedia.summary

/-- The `research_prompt` f-string of main.py lines 210-230. -/
def research_prompt (topic : String) (research_data : ResearchData) : String :=
  "\n    You are a senior researcher. Analyze the following information about \"" ++ topic
    ++ "\" and create a comprehensive research report.\n\n    WEB SEARCH RESULTS:\n    "
    ++ web_context research_data
    ++ "\n\n    WIKIPEDIA REFERENCE:\n    "
    ++ wiki_context research_data
    ++ "\n\n    Create a structured research report that includes:\n"
    ++ "    1. Executive Summary\n    2. Key Findings and Current Trends\n"
    ++ "    3. Applications and Use Cases\n    4. Challenges and Limitations\n"
    ++ "    5. Future Outlook\n    6. Key Statistics (if available)\n"
    ++ "    7. Important Sources\n\n"
    ++ "    Make the report informative, well-organized, and based on the provided research data.\n"
    ++ "    Focus on accuracy and cite relevant information from the sources.\n    "

/-- The stage `generate_research_report` (main.py lines 199-233): one completion
call with `max_tokens=2500`. -/
def generate_research_report (apiKey : Option String) (model_choice : String)
    (topic : String) (research_data : ResearchData) (t : Transport) : String :=
  call_groq_api apiKey model_choice (research_prompt topic research_data) 2500 t

/-- The two `research_depth` values of main.py line 23. -/
inductive Depth where
  | Basic
  | Detailed
  deriving Repr, DecidableEq

/-- The `depth_instruction` of main.py lines 239-243. -/
def depth_instruction : Depth → String
  | .Detailed => "Create a detailed, comprehensive article (1500-2000 words) with in-depth analysis."
  | .Basic => "Create a well-structured article (800-1200 words) covering the key points."

/-- The `article_prompt` f-string of main.py lines 245-262. -/
def article_prompt (topic language research_report : String) (depth : Depth) : String :=
  "\n    You are a professional content writer. Based on the research report below, write an engaging article about \""
    ++ topic ++ "\" in " ++ language ++ ".\n\n    RESEARCH REPORT:\n    "
    ++ research_report
    ++ "\n\n    REQUIREMENTS:\n    - Write entirely in " ++ language ++ " language\n    - "
    ++ depth_instruction depth
    ++ "\n    - Structure: Introduction, Main Body (3-4 sections), Conclusion\n"
    ++ "    - Use clear headings and subheadings\n"
    ++ "    - Make it accessible to both technical and general audiences\n"
    ++ "    - Include relevant examples and insights from the research\n"
    ++ "    - Ensure proper flow and engaging style\n"
    ++ "    - Add a compelling introduction and strong conclusion\n\n"
    ++ "    Create a publication-ready article that effectively communicates the topic\x27s importance and implications.\n    "

/-- The stage `generate_article` (main.py lines 236-265): one completion call with
`max_tokens=3500`. -/
def generate_article (apiKey : Option String) (model_choice : String)
    (topic language research_report : String) (depth : Depth) (t : Transport) : String :=
  call_groq_api apiKey model_choice (article_prompt topic language research_report depth) 3500 t

/-- The `improvement_prompt` f-string of main.py lines 271-289. -/
def improvement_prompt (article topic language : String) : String :=
  "\n    You are a professional editor. Review and improve the following article about \""
    ++ topic ++ "\" in " ++ language ++ ".\n\n    ARTICLE TO IMPROVE:\n    "
    ++ article
    ++ "\n\n    IMPROVEMENT TASKS:\n"
    ++ "    1. Enhance readability and flow\n    2. Improve structure and organization\n"
    ++ "    3. Add better transitions between sections\n    4. Ensure consistent tone and style\n"
    ++ "    5. Fix any grammar or language issues\n    6. Make the content more engaging\n"
    ++ "    7. Ensure all information is well-presented\n    8. Add section breaks and better formatting\n\n"
    ++ "    Return the improved, polished version of the article that\x27s ready for publication.\n"
    ++ "    Maintain the same language (" ++ language ++ ") and overall content while making it significantly better.\n    "

/-- The stage `improve_article` (main.py lines 268-292): one completion call with
`max_tokens=4000`. -/
def improve_article (apiKey : Option String) (model_choice : String)
    (article topic language : String) (t : Transport) : String :=
  call_groq_api apiKey model_choice (improvement_prompt article topic language) 4000 t

/-! ## Main execution block (main.py lines 295-367) -/

/-- A network call made during a run: a completion request (with the
request body actually transmitted), a Serper search, or the Wikipedia
lookup. -/
inductive NetCall where
  | completion (req : RequestData)
  | search (query : String)
  | wikiLookup
  deriving Repr, DecidableEq

def countCompletions (calls : List NetCall) : Nat :=
  (calls.filter fun c =>
    match c with
    | .completion _ => true
    | _ => false).length

/-- Network calls made by `conduct_research`: three searches when the
Serper key is present (none otherwise — `web_search` returns early at
lines 54-55), then the Wikipedia lookup. -/
def research_net_calls (serperKey : Option String) (topic : String) : List NetCall :=
  (match serperKey with
   | none => []
   | some _ => (search_queries topic).map NetCall.search) ++ [NetCall.wikiLookup]

/-- Terminal state of one button-triggered run of the main block.
`stoppedNoKey` / `stoppedBadKey` are the `st.stop()` exits of lines
296-312, `stoppedConnTest` the exit at lines 318-333, `failedResearch` a
Gatherer exception reaching the `except` at line 491, `failedReport` /
`failedArticle` the `st.stop()` exits of lines 350-359, and `done` carries
`final_article`, `research_report` and `article` as displayed/exported. -/
inductive RunResult where
  | stoppedNoKey
  | stoppedBadKey
  | stoppedConnTest (msg : String)
  | failedResearch (exnMsg : String)
  | failedReport (msg : String)
  | failedArticle (msg : String)
  | done (final_article research_report article : String)
  deriving Repr, DecidableEq

/-- The main execution block (main.py lines 295-367), from the button
click to the terminal state, paired with the list of network calls made.
`completions i` is the transport behaviour of the i-th completion call of
the run (0 = connection test, 1 = report, 2 = article, 3 = polish). -/
def run (groqKey serperKey : Option String) (model_choice : String)
    (completions : Nat → Transport) (topic language : String) (depth : Depth)
    (searchOutcomes : String → SearchOutcome) (wiki : WikiOutcome) :
    RunResult × List NetCall :=
  match groqKey with
  | none => (.stoppedNoKey, [])
  | some key =>
    if pyStartsWith key "gsk_" then
      let testPrompt := "Say \x27Connection test successful\x27"
      let test_result := call_groq_api (some key) model_choice testPrompt 20 (completions 0)
      let calls0 : List NetCall := [.completion (buildRequest model_choice testPrompt 20)]
      if pyContains test_result "Error" then (.stoppedConnTest test_result, calls0)
      else
        let researchCalls := research_net_calls serperKey topic
        match conduct_research serperKey topic searchOutcomes wiki with
        | .error e => (.failedResearch e, calls0 ++ researchCalls)
        | .ok research_data =>
          let research_report :=
            generate_research_report (some key) model_choice topic research_data (completions 1)
          let calls1 := calls0 ++ researchCalls
            ++ [.completion (buildRequest model_choice (research_prompt topic research_data) 2500)]
          if pyContains research_report "Error" then (.failedReport research_report, calls1)
          else
            let article :=
              generate_article (some key) model_choice topic language research_report depth (completions 2)
            let calls2 := calls1
              ++ [.completion (buildRequest model_choice (article_prompt topic language research_report depth) 3500)]
            if pyContains article "Error" then (.failedArticle article, calls2)
            else
              match depth with
              | .Basic => (.done article research_report article, calls2)
              | .Detailed =>
                let improved :=
                  improve_article (some key) model_choice article topic language (completions 3)
                let calls3 := calls2
                  ++ [.completion (buildRequest model_choice (improvement_prompt article topic language) 4000)]
                if pyContains improved "Error" then (.done article research_report article, calls3)
                else (.done improved research_report article, calls3)
    else (.stoppedBadKey, [])

/-- A canned 200 transport whose body parses into one choice carrying the
given content: the mocked-transport fixture for successful completions. -/
def okTransport (content : String) : Transport :=
  .resp ⟨200, "", .value none none (some [.content content]) ""⟩

/-- A mocked completion oracle giving the transports of the connection
test, report, article and polish calls in order. -/
def mockCompletions (c0 c1 c2 c3 : Transport) : Nat → Transport
  | 0 => c0
  | 1 => c1
  | 2 => c2
  | _ => c3

/-! ## Helper lemmas -/

theorem pyStartsWith_append_left (s t pre : String)
    (h : pyStartsWith s pre = true) : pyStartsWith (s ++ t) pre = true := by
  simp only [pyStartsWith, List.isPrefixOf_iff_prefix] at h ⊢
  have hd : (s ++ t).toList = s.toList ++ t.toList := by
    cases s; cases t; rfl
  rw [hd]
  exact h.trans (List.prefix_append _ _)

theorem countCompletions_append (a b : List NetCall) :
    countCompletions (a ++ b) = countCompletions a + countCompletions b := by
  simp [countCompletions, List.filter_append]

theorem countCompletions_research_net_calls (serperKey : Option String) (topic : String) :
    countCompletions (research_net_calls serperKey topic) = 0 := by
  cases serperKey <;>
    simp [countCompletions, research_net_calls, search_queries, List.filter]

theorem countCompletions_nil : countCompletions [] = 0 := rfl

theorem countCompletions_single (req : RequestData) :
    countCompletions [NetCall.completion req] = 1 := by
  simp [countCompletions, List.filter]

theorem countCompletions_cons_completion (req : RequestData) (l : List NetCall) :
    countCompletions (NetCall.completion req :: l) = countCompletions l + 1 := by
  simp [countCompletions, List.filter]

/-- On a 200 response whose body parses with a first choice carrying
`message.content`, `call_groq_api` returns that content. -/
theorem call_groq_api_success (key model_choice prompt : String) (max_tokens : Int)
    (txt : String) (em et : Option String) (c : String) (rest : List ChoiceParse)
    (rp : String) (hkey : pyStartsWith key "gsk_" = true) :
    call_groq_api (some key) model_choice prompt max_tokens
      (.resp ⟨200, txt, .value em et (some (.content c :: rest)) rp⟩) = c := by
  simp only [call_groq_api]
  rw [if_pos hkey]
  rfl

/-! ## Claims -/

/-- C5: for every prompt longer than 15000 characters, `call_groq_api`
transmits exactly the first 15000 characters followed by the fixed marker
`"\n\n[Content truncated due to length]"`; prompts of at most 15000
characters are transmitted unchanged (main.py lines 99-101). -/
theorem prompt_truncation_exact (model_choice prompt : String) (max_tokens : Int) :
    (prompt.length > 15000 →
      (buildRequest model_choice prompt max_tokens).messageContent
        = pySlice prompt 15000 ++ "\n\n[Content truncated due to length]")
  ∧ (prompt.length ≤ 15000 →
      (buildRequest model_choice prompt max_tokens).messageContent = prompt) := by
  constructor
  · intro h
    simp only [buildRequest]
    rw [if_pos h]
  · intro h
    simp only [buildRequest]
    rw [if_neg (by omega)]

/-- Witness for `prompt_truncation_exact`: a 15001-character prompt is
truncated, a short one passes through. -/
theorem prompt_truncation_exact_witness :
    ((String.mk (List.replicate 15001 'a')).length > 15000
      ∧ (buildRequest "llama-3.1-8b-instant" (String.mk (List.replicate 15001 'a')) 3000).messageContent
          = pySlice (String.mk (List.replicate 15001 'a')) 15000
              ++ "\n\n[Content truncated due to length]")
  ∧ (("hi" : String).length ≤ 15000
      ∧ (buildRequest "llama-3.1-8b-instant" "hi" 3000).messageContent = "hi") := by
  have h1 : (String.mk (List.replicate 15001 'a')).length > 15000 := by
    show 15000 < (List.replicate 15001 'a').length
    rw [List.length_replicate]
    omega
  have h2 : ("hi" : String).length ≤ 15000 := by decide
  exact ⟨⟨h1, (prompt_truncation_exact "llama-3.1-8b-instant" _ 3000).1 h1⟩,
         ⟨h2, (prompt_truncation_exact "llama-3.1-8b-instant" "hi" 3000).2 h2⟩⟩

/-- C6: a requested `max_tokens` above 4000 is transmitted as exactly
4000; a request of at most 4000 is transmitted unchanged
(`min(max_tokens, 4000)`, main.py line 108). -/
theorem max_tokens_clamp (model_choice prompt : String) (max_tokens : Int) :
    (max_tokens > 4000 → (buildRequest model_choice prompt max_tokens).max_tokens = 4000)
  ∧ (max_tokens ≤ 4000 → (buildRequest model_choice prompt max_tokens).max_tokens = max_tokens) := by
  constructor
  · intro h
    simp only [buildRequest]
    omega
  · intro h
    simp only [buildRequest]
    omega

/-- Witness for `max_tokens_clamp`: 5000 is clamped to 4000, 100 passes. -/
theorem max_tokens_clamp_witness :
    ((5000 : Int) > 4000 ∧ (buildRequest "m" "p" 5000).max_tokens = 4000)
  ∧ ((100 : Int) ≤ 4000 ∧ (buildRequest "m" "p" 100).max_tokens = 100) :=
  ⟨⟨by decide, (max_tokens_clamp "m" "p" 5000).1 (by decide)⟩,
   ⟨by decide, (max_tokens_clamp "m" "p" 100).2 (by decide)⟩⟩

/-- C1 counterexample: a 400 error body whose message contains "rate"
(case-insensitively) but also contains "model" is classified as
model-not-available, not rate-limit, because the substring checks run in
the order model, token, rate (main.py lines 129-136). -/
theorem rate_classification_counterexample :
    pyContains (pyLower "Rate limit reached for model llama-3.1-8b-instant") "rate" = true
  ∧ call_groq_api (some "gsk_k") "llama-3.1-8b-instant" "p" 100
      (.resp ⟨400, "", .value (some "Rate limit reached for model llama-3.1-8b-instant")
        (some "invalid_request_error") none ""⟩)
      = "Error: Model \x27llama-3.1-8b-instant\x27 not available. Try: llama-3.1-8b-instant"
  ∧ pyStartsWith
      (call_groq_api (some "gsk_k") "llama-3.1-8b-instant" "p" 100
        (.resp ⟨400, "", .value (some "Rate limit reached for model llama-3.1-8b-instant")
          (some "invalid_request_error") none ""⟩))
      "Error: Rate limit exceeded." = false := by
  exact ⟨by decide, by decide, by decide⟩

/-- C1 (amended): a 400 response whose error message contains "rate"
case-insensitively AND contains neither "model" nor "token" is classified
as the rate-limit failure `"Error: Rate limit exceeded. " ++ message`;
the checks for "model" and "token" take precedence (main.py lines
129-134). -/
theorem rate_classification (key model_choice prompt : String) (max_tokens : Int)
    (text resultRepr : String) (errType : Option String)
    (choices : Option (List ChoiceParse)) (msg : String)
    (hkey : pyStartsWith key "gsk_" = true)
    (hrate : pyContains (pyLower msg) "rate" = true)
    (hmodel : pyContains (pyLower msg) "model" = false)
    (htok : pyContains (pyLower msg) "token" = false) :
    call_groq_api (some key) model_choice prompt max_tokens
      (.resp ⟨400, text, .value (some msg) errType choices resultRepr⟩)
      = "Error: Rate limit exceeded. " ++ msg := by
  simp [call_groq_api, hkey, hrate, hmodel, htok]

/-- Witness for `rate_classification`. -/
theorem rate_classification_witness :
    call_groq_api (some "gsk_k") "llama-3.1-8b-instant" "p" 100
      (.resp ⟨400, "", .value (some "Rate limit reached, please retry later")
        (some "invalid_request_error") none ""⟩)
      = "Error: Rate limit exceeded. " ++ "Rate limit reached, please retry later" :=
  rate_classification "gsk_k" "llama-3.1-8b-instant" "p" 100 ""
    "" (some "invalid_request_error") none "Rate limit reached, please retry later"
    (by decide) (by decide) (by decide) (by decide)

/-- C7: with a missing credential, or one not starting with "gsk_",
`call_groq_api` returns the credential failure message for every transport
behaviour (so without any network call), and the main block stops at its
credential guard with an empty network-call trace (main.py lines 86-91
and 295-312). -/
theorem credential_guard (model_choice prompt : String) (max_tokens : Int)
    (serperKey : Option String) (mc : String) (completions : Nat → Transport)
    (topic language : String) (depth : Depth)
    (searchOutcomes : String → SearchOutcome) (wiki : WikiOutcome)
    (key : String) (hkey : pyStartsWith key "gsk_" = false) :
    (∀ t, call_groq_api none model_choice prompt max_tokens t
        = "Error: Groq API key not found.")
  ∧ (∀ t, call_groq_api (some key) model_choice prompt max_tokens t
        = "Error: Invalid Groq API key format. Key should start with \x27gsk_\x27")
  ∧ run none serperKey mc completions topic language depth searchOutcomes wiki
      = (.stoppedNoKey, [])
  ∧ run (some key) serperKey mc completions topic language depth searchOutcomes wiki
      = (.stoppedBadKey, []) := by
  refine ⟨fun t => rfl, fun t => ?_, rfl, ?_⟩
  · simp [call_groq_api, hkey]
  · simp [run, hkey]

/-- Witness for `credential_guard` with the malformed key "sk-xyz". -/
theorem credential_guard_witness :
    call_groq_api none "llama-3.1-8b-instant" "p" 100 Transport.timeout
      = "Error: Groq API key not found."
  ∧ call_groq_api (some "sk-xyz") "llama-3.1-8b-instant" "p" 100 Transport.timeout
      = "Error: Invalid Groq API key format. Key should start with \x27gsk_\x27"
  ∧ run none none "llama-3.1-8b-instant" (fun _ => Transport.timeout)
      "AI in Healthcare" "English" .Basic (fun _ => .exn "e") (.ok "s" "u" "t")
      = (.stoppedNoKey, [])
  ∧ run (some "sk-xyz") none "llama-3.1-8b-instant" (fun _ => Transport.timeout)
      "AI in Healthcare" "English" .Basic (fun _ => .exn "e") (.ok "s" "u" "t")
      = (.stoppedBadKey, []) := by
  obtain ⟨h1, h2, h3, h4⟩ :=
    credential_guard "llama-3.1-8b-instant" "p" 100 none "llama-3.1-8b-instant"
      (fun _ => Transport.timeout) "AI in Healthcare" "English" .Basic
      (fun _ => .exn "e") (.ok "s" "u" "t") "sk-xyz" (by decide)
  exact ⟨h1 _, h2 _, h3, h4⟩

/-- C10: `call_groq_api` is total over every credential state, prompt,
token budget and transport outcome: it either returns the extracted
content of a well-formed 200 response, or a string beginning with
"Error" — every modelled exception (timeout, connection failure, request
exception, JSON decoding failure, missing field, anything else) is
converted to such a message, so nothing escapes the Completion Client
boundary (main.py lines 86-166). -/
theorem completion_client_total (apiKey : Option String) (model_choice prompt : String)
    (max_tokens : Int) (t : Transport) :
    pyStartsWith (call_groq_api apiKey model_choice prompt max_tokens t) "Error" = true
  ∨ ∃ r em et c rest rp, t = Transport.resp r ∧ r.status_code = 200
      ∧ r.json = JsonResult.value em et (some (ChoiceParse.content c :: rest)) rp
      ∧ call_groq_api apiKey model_choice prompt max_tokens t = c := by
  match apiKey with
  | none =>
    exact Or.inl (by decide :
      pyStartsWith "Error: Groq API key not found." "Error" = true)
  | some key =>
    by_cases hkey : pyStartsWith key "gsk_" = true
    case neg =>
      left
      simp only [call_groq_api]
      rw [if_neg hkey]
      decide
    case pos =>
      simp only [call_groq_api]
      rw [if_pos hkey]
      cases t with
      | timeout =>
        exact Or.inl (by decide :
          pyStartsWith "Error: Request timed out. Groq API is taking too long to respond." "Error" = true)
      | connectionError =>
        exact Or.inl (by decide :
          pyStartsWith "Error: Cannot connect to Groq API. Check your internet connection." "Error" = true)
      | requestException msg =>
        exact Or.inl (pyStartsWith_append_left _ _ _ (by decide :
          pyStartsWith "Error: Network issue: " "Error" = true))
      | otherException msg =>
        exact Or.inl (pyStartsWith_append_left _ _ _ (by decide :
          pyStartsWith "Error: Unexpected issue: " "Error" = true))
      | resp r =>
        obtain ⟨sc, txt, j⟩ := r
        simp only []
        by_cases h400 : sc = 400
        · rw [if_pos (by simp [h400] : ((sc == 400) = true))]
          cases j with
          | decodeError msg =>
            simp only []
            exact Or.inl (pyStartsWith_append_left _ _ _ (by decide :
              pyStartsWith "Error 400: Invalid request format. Response: " "Error" = true))
          | value em et ch rp =>
            simp only []
            by_cases hm : pyContains (pyLower (em.getD "Unknown 400 error")) "model" = true
            · rw [if_pos hm]
              exact Or.inl (pyStartsWith_append_left _ _ _
                (pyStartsWith_append_left _ _ _ (by decide :
                  pyStartsWith "Error: Model \x27" "Error" = true)))
            · rw [if_neg hm]
              by_cases ht : pyContains (pyLower (em.getD "Unknown 400 error")) "token" = true
              · rw [if_pos ht]
                exact Or.inl (pyStartsWith_append_left _ _ _ (by decide :
                  pyStartsWith "Error: Token limit issue. " "Error" = true))
              · rw [if_neg ht]
                by_cases hr : pyContains (pyLower (em.getD "Unknown 400 error")) "rate" = true
                · rw [if_pos hr]
                  exact Or.inl (pyStartsWith_append_left _ _ _ (by decide :
                    pyStartsWith "Error: Rate limit exceeded. " "Error" = true))
                · rw [if_neg hr]
                  exact Or.inl (pyStartsWith_append_left _ _ _
                    (pyStartsWith_append_left _ _ _
                      (pyStartsWith_append_left _ _ _
                        (pyStartsWith_append_left _ _ _ (by decide :
                          pyStartsWith "Error 400: " "Error" = true)))))
        · rw [if_neg (by simp [h400] : ¬((sc == 400) = true))]
          by_cases h401 : sc = 401
          · rw [if_pos (by simp [h401] : ((sc == 401) = true))]
            exact Or.inl (by decide :
              pyStartsWith "Error 401: Invalid API key. Please check your Groq API key." "Error" = true)
          · rw [if_neg (by simp [h401] : ¬((sc == 401) = true))]
            by_cases h429 : sc = 429
            · rw [if_pos (by simp [h429] : ((sc == 429) = true))]
              exact Or.inl (by decide :
                pyStartsWith "Error 429: Rate limit exceeded. Please wait a moment and try again." "Error" = true)
            · rw [if_neg (by simp [h429] : ¬((sc == 429) = true))]
              by_cases h200 : sc = 200
              · rw [if_neg (by simp [bne, h200] : ¬((sc != 200) = true))]
                cases j with
                | decodeError msg =>
                  simp only []
                  exact Or.inl (pyStartsWith_append_left _ _ _ (by decide :
                    pyStartsWith "Error: Invalid JSON response from Groq API: " "Error" = true))
                | value em et ch rp =>
                  simp only []
                  cases ch with
                  | none =>
                    simp only []
                    exact Or.inl (pyStartsWith_append_left _ _ _ (by decide :
                      pyStartsWith "Error: Unexpected response format: " "Error" = true))
                  | some l =>
                    cases l with
                    | nil =>
                      simp only []
                      exact Or.inl (pyStartsWith_append_left _ _ _ (by decide :
                        pyStartsWith "Error: Unexpected response format: " "Error" = true))
                    | cons c rest =>
                      cases c with
                      | content text =>
                        subst h200
                        exact Or.inr ⟨⟨200, txt, JsonResult.value em et
                          (some (ChoiceParse.content text :: rest)) rp⟩,
                          em, et, text, rest, rp, rfl, rfl, rfl, rfl⟩
                      | keyError msg =>
                        simp only []
                        exact Or.inl (pyStartsWith_append_left _ _ _ (by decide :
                          pyStartsWith "Error: Missing field in API response: " "Error" = true))
              · rw [if_pos (by simp [bne, h200] : ((sc != 200) = true))]
                exact Or.inl (pyStartsWith_append_left _ _ _
                  (pyStartsWith_append_left _ _ _
                    (pyStartsWith_append_left _ _ _ (by decide :
                      pyStartsWith "Error " "Error" = true))))
/-! ### Run-reduction helper lemmas -/

theorem run_report_failed (key : String) (serperKey : Option String) (mc : String)
    (completions : Nat → Transport) (topic language : String) (depth : Depth)
    (searchOutcomes : String → SearchOutcome) (wiki : WikiOutcome)
    (rd : ResearchData) (R : String)
    (hkey : pyStartsWith key "gsk_" = true)
    (htest : pyContains (call_groq_api (some key) mc
      "Say \x27Connection test successful\x27" 20 (completions 0)) "Error" = false)
    (hres : conduct_research serperKey topic searchOutcomes wiki = .ok rd)
    (hR : generate_research_report (some key) mc topic rd (completions 1) = R)
    (hRbad : pyContains R "Error" = true) :
    run (some key) serperKey mc completions topic language depth searchOutcomes wiki
      = (.failedReport R,
          [.completion (buildRequest mc "Say \x27Connection test successful\x27" 20)]
            ++ research_net_calls serperKey topic
            ++ [.completion (buildRequest mc (research_prompt topic rd) 2500)]) := by
  simp only [run]
  rw [if_pos hkey]
  rw [if_neg (by simp [htest] : ¬(pyContains (call_groq_api (some key) mc
      "Say \x27Connection test successful\x27" 20 (completions 0)) "Error" = true))]
  rw [hres]
  simp only []
  rw [hR]
  rw [if_pos hRbad]

theorem run_article_failed (key : String) (serperKey : Option String) (mc : String)
    (completions : Nat → Transport) (topic language : String) (depth : Depth)
    (searchOutcomes : String → SearchOutcome) (wiki : WikiOutcome)
    (rd : ResearchData) (R A : String)
    (hkey : pyStartsWith key "gsk_" = true)
    (htest : pyContains (call_groq_api (some key) mc
      "Say \x27Connection test successful\x27" 20 (completions 0)) "Error" = false)
    (hres : conduct_research serperKey topic searchOutcomes wiki = .ok rd)
    (hR : generate_research_report (some key) mc topic rd (completions 1) = R)
    (hRok : pyContains R "Error" = false)
    (hA : generate_article (some key) mc topic language R depth (completions 2) = A)
    (hAbad : pyContains A "Error" = true) :
    run (some key) serperKey mc completions topic language depth searchOutcomes wiki
      = (.failedArticle A,
          [.completion (buildRequest mc "Say \x27Connection test successful\x27" 20)]
            ++ research_net_calls serperKey topic
            ++ [.completion (buildRequest mc (research_prompt topic rd) 2500)]
            ++ [.completion (buildRequest mc (article_prompt topic language R depth) 3500)]) := by
  simp only [run]
  rw [if_pos hkey]
  rw [if_neg (by simp [htest] : ¬(pyContains (call_groq_api (some key) mc
      "Say \x27Connection test successful\x27" 20 (completions 0)) "Error" = true))]
  rw [hres]
  simp only []
  rw [hR]
  rw [if_neg (by simp [hRok] : ¬(pyContains R "Error" = true))]
  rw [hA]
  rw [if_pos hAbad]

theorem run_basic_done (key : String) (serperKey : Option String) (mc : String)
    (completions : Nat → Transport) (topic language : String)
    (searchOutcomes : String → SearchOutcome) (wiki : WikiOutcome)
    (rd : ResearchData) (R A : String)
    (hkey : pyStartsWith key "gsk_" = true)
    (htest : pyContains (call_groq_api (some key) mc
      "Say \x27Connection test successful\x27" 20 (completions 0)) "Error" = false)
    (hres : conduct_research serperKey topic searchOutcomes wiki = .ok rd)
    (hR : generate_research_report (some key) mc topic rd (completions 1) = R)
    (hRok : pyContains R "Error" = false)
    (hA : generate_article (some key) mc topic language R .Basic (completions 2) = A)
    (hAok : pyContains A "Error" = false) :
    run (some key) serperKey mc completions topic language .Basic searchOutcomes wiki
      = (.done A R A,
          [.completion (buildRequest mc "Say \x27Connection test successful\x27" 20)]
            ++ research_net_calls serperKey topic
            ++ [.completion (buildRequest mc (research_prompt topic rd) 2500)]
            ++ [.completion (buildRequest mc (article_prompt topic language R .Basic) 3500)]) := by
  simp only [run]
  rw [if_pos hkey]
  rw [if_neg (by simp [htest] : ¬(pyContains (call_groq_api (some key) mc
      "Say \x27Connection test successful\x27" 20 (completions 0)) "Error" = true))]
  rw [hres]
  simp only []
  rw [hR]
  rw [if_neg (by simp [hRok] : ¬(pyContains R "Error" = true))]
  rw [hA]
  rw [if_neg (by simp [hAok] : ¬(pyContains A "Error" = true))]

theorem run_polish_failed (key : String) (serperKey : Option String) (mc : String)
    (completions : Nat → Transport) (topic language : String)
    (searchOutcomes : String → SearchOutcome) (wiki : WikiOutcome)
    (rd : ResearchData) (R A I : String)
    (hkey : pyStartsWith key "gsk_" = true)
    (htest : pyContains (call_groq_api (some key) mc
      "Say \x27Connection test successful\x27" 20 (completions 0)) "Error" = false)
    (hres : conduct_research serperKey topic searchOutcomes wiki = .ok rd)
    (hR : generate_research_report (some key) mc topic rd (completions 1) = R)
    (hRok : pyContains R "Error" = false)
    (hA : generate_article (some key) mc topic language R .Detailed (completions 2) = A)
    (hAok : pyContains A "Error" = false)
    (hI : improve_article (some key) mc A topic language (completions 3) = I)
    (hIbad : pyContains I "Error" = true) :
    run (some key) serperKey mc completions topic language .Detailed searchOutcomes wiki
      = (.done A R A,
          [.completion (buildRequest mc "Say \x27Connection test successful\x27" 20)]
            ++ research_net_calls serperKey topic
            ++ [.completion (buildRequest mc (research_prompt topic rd) 2500)]
            ++ [.completion (buildRequest mc (article_prompt topic language R .Detailed) 3500)]
            ++ [.completion (buildRequest mc (improvement_prompt A topic language) 4000)]) := by
  simp only [run]
  rw [if_pos hkey]
  rw [if_neg (by simp [htest] : ¬(pyContains (call_groq_api (some key) mc
      "Say \x27Connection test successful\x27" 20 (completions 0)) "Error" = true))]
  rw [hres]
  simp only []
  rw [hR]
  rw [if_neg (by simp [hRok] : ¬(pyContains R "Error" = true))]
  rw [hA]
  rw [if_neg (by simp [hAok] : ¬(pyContains A "Error" = true))]
  rw [hI]
  rw [if_pos hIbad]

/-- C2: once the report or article stage yields a failure result, no
downstream stage executes and the run terminates surfacing that failure:
a failed report ends the run as `failedReport` after exactly 2 completion
calls (connection test + report — the article and polish stages never
run), and a failed article ends it as `failedArticle` after exactly 3
completion calls (the polish stage never runs) (main.py lines 343-367). -/
theorem failure_stops_pipeline (key : String) (serperKey : Option String) (mc : String)
    (completions : Nat → Transport) (topic language : String) (depth : Depth)
    (searchOutcomes : String → SearchOutcome) (wiki : WikiOutcome)
    (rd : ResearchData) (R A : String)
    (hkey : pyStartsWith key "gsk_" = true)
    (htest : pyContains (call_groq_api (some key) mc
      "Say \x27Connection test successful\x27" 20 (completions 0)) "Error" = false)
    (hres : conduct_research serperKey topic searchOutcomes wiki = .ok rd)
    (hR : generate_research_report (some key) mc topic rd (completions 1) = R)
    (hA : generate_article (some key) mc topic language R depth (completions 2) = A) :
    (pyContains R "Error" = true →
      (run (some key) serperKey mc completions topic language depth searchOutcomes wiki).1
          = .failedReport R
        ∧ countCompletions
            (run (some key) serperKey mc completions topic language depth searchOutcomes wiki).2 = 2)
  ∧ (pyContains R "Error" = false → pyContains A "Error" = true →
      (run (some key) serperKey mc completions topic language depth searchOutcomes wiki).1
          = .failedArticle A
        ∧ countCompletions
            (run (some key) serperKey mc completions topic language depth searchOutcomes wiki).2 = 3) := by
  constructor
  · intro hRbad
    rw [run_report_failed key serperKey mc completions topic language depth searchOutcomes
      wiki rd R hkey htest hres hR hRbad]
    refine ⟨rfl, ?_⟩
    simp [countCompletions_cons_completion, countCompletions_append,
      countCompletions_research_net_calls, countCompletions_single, countCompletions_nil]
  · intro hRok hAbad
    rw [run_article_failed key serperKey mc completions topic language depth searchOutcomes
      wiki rd R A hkey htest hres hR hRok hA hAbad]
    refine ⟨rfl, ?_⟩
    simp [countCompletions_cons_completion, countCompletions_append,
      countCompletions_research_net_calls, countCompletions_single, countCompletions_nil]

/-- Witness for `failure_stops_pipeline`: a timed-out report call stops
the run after 2 completion calls; a timed-out article call stops it after
3. -/
theorem failure_stops_pipeline_witness :
    ((run (some "gsk_abc") none "llama-3.1-8b-instant"
        (mockCompletions (okTransport "Connection test successful") Transport.timeout
          (okTransport "article text") (okTransport "polished"))
        "AI in Healthcare" "English" .Basic (fun _ => .exn "e") (.ok "s" "u" "t")).1
      = .failedReport "Error: Request timed out. Groq API is taking too long to respond."
    ∧ countCompletions (run (some "gsk_abc") none "llama-3.1-8b-instant"
        (mockCompletions (okTransport "Connection test successful") Transport.timeout
          (okTransport "article text") (okTransport "polished"))
        "AI in Healthcare" "English" .Basic (fun _ => .exn "e") (.ok "s" "u" "t")).2 = 2)
  ∧ ((run (some "gsk_abc") none "llama-3.1-8b-instant"
        (mockCompletions (okTransport "Connection test successful") (okTransport "report text")
          Transport.timeout (okTransport "polished"))
        "AI in Healthcare" "English" .Basic (fun _ => .exn "e") (.ok "s" "u" "t")).1
      = .failedArticle "Error: Request timed out. Groq API is taking too long to respond."
    ∧ countCompletions (run (some "gsk_abc") none "llama-3.1-8b-instant"
        (mockCompletions (okTransport "Connection test successful") (okTransport "report text")
          Transport.timeout (okTransport "polished"))
        "AI in Healthcare" "English" .Basic (fun _ => .exn "e") (.ok "s" "u" "t")).2 = 3) := by
  constructor
  · exact (failure_stops_pipeline "gsk_abc" none "llama-3.1-8b-instant"
      (mockCompletions (okTransport "Connection test successful") Transport.timeout
        (okTransport "article text") (okTransport "polished"))
      "AI in Healthcare" "English" .Basic (fun _ => .exn "e") (.ok "s" "u" "t")
      ⟨[], ⟨"s", "u", "t"⟩, search_queries "AI in Healthcare"⟩
      "Error: Request timed out. Groq API is taking too long to respond."
      "article text"
      (by decide) (by decide) rfl (by decide) (by decide)).1 (by decide)
  · exact (failure_stops_pipeline "gsk_abc" none "llama-3.1-8b-instant"
      (mockCompletions (okTransport "Connection test successful") (okTransport "report text")
        Transport.timeout (okTransport "polished"))
      "AI in Healthcare" "English" .Basic (fun _ => .exn "e") (.ok "s" "u" "t")
      ⟨[], ⟨"s", "u", "t"⟩, search_queries "AI in Healthcare"⟩
      "report text"
      "Error: Request timed out. Groq API is taking too long to respond."
      (by decide) (by decide) rfl (by decide) (by decide)).2 (by decide) (by decide)

/-- C3: with depth Detailed, when the polish stage's completion call
fails, the run's final output is the article stage's output verbatim —
polishing degrades to the unpolished article instead of failing the run
(main.py lines 361-367 and 268-292). -/
theorem polish_failure_falls_back (key : String) (serperKey : Option String) (mc : String)
    (completions : Nat → Transport) (topic language : String)
    (searchOutcomes : String → SearchOutcome) (wiki : WikiOutcome)
    (rd : ResearchData) (R A I : String)
    (hkey : pyStartsWith key "gsk_" = true)
    (htest : pyContains (call_groq_api (some key) mc
      "Say \x27Connection test successful\x27" 20 (completions 0)) "Error" = false)
    (hres : conduct_research serperKey topic searchOutcomes wiki = .ok rd)
    (hR : generate_research_report (some key) mc topic rd (completions 1) = R)
    (hRok : pyContains R "Error" = false)
    (hA : generate_article (some key) mc topic language R .Detailed (completions 2) = A)
    (hAok : pyContains A "Error" = false)
    (hI : improve_article (some key) mc A topic language (completions 3) = I)
    (hIbad : pyContains I "Error" = true) :
    (run (some key) serperKey mc completions topic language .Detailed searchOutcomes wiki).1
      = .done A R A := by
  rw [run_polish_failed key serperKey mc completions topic language searchOutcomes wiki
    rd R A I hkey htest hres hR hRok hA hAok hI hIbad]

/-- Witness for `polish_failure_falls_back`: a connection error on the
polish call leaves the article text as the final output. -/
theorem polish_failure_falls_back_witness :
    (run (some "gsk_abc") none "llama-3.1-8b-instant"
        (mockCompletions (okTransport "Connection test successful") (okTransport "report text")
          (okTransport "article text") Transport.connectionError)
        "AI in Healthcare" "English" .Detailed (fun _ => .exn "e") (.ok "s" "u" "t")).1
      = .done "article text" "report text" "article text" :=
  polish_failure_falls_back "gsk_abc" none "llama-3.1-8b-instant"
    (mockCompletions (okTransport "Connection test successful") (okTransport "report text")
      (okTransport "article text") Transport.connectionError)
    "AI in Healthcare" "English" (fun _ => .exn "e") (.ok "s" "u" "t")
    ⟨[], ⟨"s", "u", "t"⟩, search_queries "AI in Healthcare"⟩
    "report text" "article text"
    "Error: Cannot connect to Groq API. Check your internet connection."
    (by decide) (by decide) rfl (by decide) (by decide) (by decide) (by decide)
    (by decide) (by decide)

/-- C4 counterexample: a fully successful run with depth Basic performs 3
completion calls in total, not 2 — the connection test at main.py line
316 precedes the report and article stage calls — and a 200 article
completion whose content is the empty string still passes the in-band
check at line 357 and reaches done with an empty article body, so "a
successful run ... reaching Done with a non-empty article body" also
fails. -/
theorem basic_two_calls_counterexample :
    ((run (some "gsk_abc") none "llama-3.1-8b-instant"
        (mockCompletions (okTransport "Connection test successful") (okTransport "report text")
          (okTransport "article text") (okTransport "polished"))
        "AI in Healthcare" "English" .Basic (fun _ => .exn "e") (.ok "s" "u" "t")).1
      = .done "article text" "report text" "article text"
  ∧ countCompletions (run (some "gsk_abc") none "llama-3.1-8b-instant"
        (mockCompletions (okTransport "Connection test successful") (okTransport "report text")
          (okTransport "article text") (okTransport "polished"))
        "AI in Healthcare" "English" .Basic (fun _ => .exn "e") (.ok "s" "u" "t")).2 = 3
  ∧ ¬ countCompletions (run (some "gsk_abc") none "llama-3.1-8b-instant"
        (mockCompletions (okTransport "Connection test successful") (okTransport "report text")
          (okTransport "article text") (okTransport "polished"))
        "AI in Healthcare" "English" .Basic (fun _ => .exn "e") (.ok "s" "u" "t")).2 = 2)
  ∧ (pyContains "" "Error" = false
  ∧ (run (some "gsk_abc") none "llama-3.1-8b-instant"
        (mockCompletions (okTransport "Connection test successful") (okTransport "report text")
          (okTransport "") (okTransport "polished"))
        "AI in Healthcare" "English" .Basic (fun _ => .exn "e") (.ok "s" "u" "t")).1
      = .done "" "report text" "") := by
  exact ⟨⟨by decide, by decide, by decide⟩, by decide, by decide⟩

/-- C4 (amended): with depth Basic the polish stage is never invoked and a
successful run performs exactly 3 completion calls in total — the
connection test plus one report call and one article call — reaching done
with the article stage's output verbatim as the final (and article) text,
so the final body is non-empty whenever the article completion's content
is non-empty (main.py lines 314-316 and 343-364). -/
theorem basic_run_three_calls (key : String) (serperKey : Option String) (mc : String)
    (completions : Nat → Transport) (topic language : String)
    (searchOutcomes : String → SearchOutcome) (wiki : WikiOutcome)
    (rd : ResearchData) (R A : String)
    (hkey : pyStartsWith key "gsk_" = true)
    (htest : pyContains (call_groq_api (some key) mc
      "Say \x27Connection test successful\x27" 20 (completions 0)) "Error" = false)
    (hres : conduct_research serperKey topic searchOutcomes wiki = .ok rd)
    (hR : generate_research_report (some key) mc topic rd (completions 1) = R)
    (hRok : pyContains R "Error" = false)
    (hA : generate_article (some key) mc topic language R .Basic (completions 2) = A)
    (hAok : pyContains A "Error" = false) :
    (run (some key) serperKey mc completions topic language .Basic searchOutcomes wiki).1
      = .done A R A
  ∧ countCompletions
      (run (some key) serperKey mc completions topic language .Basic searchOutcomes wiki).2 = 3
  ∧ (A ≠ "" → ∃ F Rr Aa,
      (run (some key) serperKey mc completions topic language .Basic searchOutcomes wiki).1
        = .done F Rr Aa ∧ F ≠ "") := by
  rw [run_basic_done key serperKey mc completions topic language searchOutcomes wiki
    rd R A hkey htest hres hR hRok hA hAok]
  refine ⟨rfl, ?_, ?_⟩
  · simp [countCompletions_cons_completion, countCompletions_append,
      countCompletions_research_net_calls, countCompletions_single, countCompletions_nil]
  · intro hAne
    exact ⟨A, R, A, rfl, hAne⟩

/-- Witness for `basic_run_three_calls`, including the non-empty final
body obtained from the non-empty article content "article text". -/
theorem basic_run_three_calls_witness :
    (run (some "gsk_abc") none "llama-3.1-8b-instant"
        (mockCompletions (okTransport "Connection test successful") (okTransport "report text")
          (okTransport "article text") Transport.timeout)
        "AI in Healthcare" "English" .Basic (fun _ => .exn "e") (.ok "s" "u" "t")).1
      = .done "article text" "report text" "article text"
  ∧ countCompletions (run (some "gsk_abc") none "llama-3.1-8b-instant"
        (mockCompletions (okTransport "Connection test successful") (okTransport "report text")
          (okTransport "article text") Transport.timeout)
        "AI in Healthcare" "English" .Basic (fun _ => .exn "e") (.ok "s" "u" "t")).2 = 3
  ∧ (∃ F Rr Aa,
      (run (some "gsk_abc") none "llama-3.1-8b-instant"
        (mockCompletions (okTransport "Connection test successful") (okTransport "report text")
          (okTransport "article text") Transport.timeout)
        "AI in Healthcare" "English" .Basic (fun _ => .exn "e") (.ok "s" "u" "t")).1
        = .done F Rr Aa ∧ F ≠ "") := by
  obtain ⟨h1, h2, h3⟩ :=
    basic_run_three_calls "gsk_abc" none "llama-3.1-8b-instant"
      (mockCompletions (okTransport "Connection test successful") (okTransport "report text")
        (okTransport "article text") Transport.timeout)
      "AI in Healthcare" "English" (fun _ => .exn "e") (.ok "s" "u" "t")
      ⟨[], ⟨"s", "u", "t"⟩, search_queries "AI in Healthcare"⟩
      "report text" "article text"
      (by decide) (by decide) rfl (by decide) (by decide) (by decide) (by decide)
  exact ⟨h1, h2, h3 (by decide)⟩

/-- C8 counterexample: an encyclopedia exception other than
`DisambiguationError` / `PageError` (here a network failure raised inside
the wikipedia library) propagates uncaught out of `wikipedia_search` and
out of `conduct_research`: the Gatherer does raise past its boundary
(main.py lines 38-50 catch only those two exception classes). -/
theorem gatherer_counterexample :
    wikipedia_search (.otherError "socket timeout") = .error "socket timeout"
  ∧ conduct_research none "AI in Healthcare" (fun _ => .exn "down")
      (.otherError "socket timeout") = .error "socket timeout" :=
  ⟨rfl, rfl⟩

/-- C8 (amended): search transport failures (including raised exceptions)
are non-fatal — `web_search` returns an empty hit list and the run
continues — and whenever the encyclopedia lookup succeeds, disambiguates,
or reports page-not-found, `conduct_research` returns a research bundle
carrying the three fixed queries; but an encyclopedia exception of any
other kind propagates uncaught out of the Gatherer. -/
theorem gatherer_degrades (serperKey : Option String) (topic : String)
    (searchOutcomes : String → SearchOutcome) (wiki : WikiOutcome)
    (hw : wiki.isOtherError = false) :
    (∀ msg, web_search serperKey (SearchOutcome.exn msg) = [])
  ∧ (∃ wi, wikipedia_search wiki = .ok wi)
  ∧ (∃ rd, conduct_research serperKey topic searchOutcomes wiki = .ok rd
        ∧ rd.search_queries = search_queries topic) := by
  refine ⟨fun msg => by cases serperKey <;> rfl, ?_, ?_⟩
  · cases wiki with
    | ok s u t => exact ⟨_, rfl⟩
    | disambiguation o => exact ⟨_, rfl⟩
    | pageError => exact ⟨_, rfl⟩
    | otherError m => simp [WikiOutcome.isOtherError] at hw
  · cases wiki with
    | ok s u t => exact ⟨_, rfl, rfl⟩
    | disambiguation o => exact ⟨_, rfl, rfl⟩
    | pageError => exact ⟨_, rfl, rfl⟩
    | otherError m => simp [WikiOutcome.isOtherError] at hw

/-- Witness for `gatherer_degrades`. -/
theorem gatherer_degrades_witness :
    web_search none (SearchOutcome.exn "boom") = []
  ∧ (∃ wi, wikipedia_search (.ok "s" "u" "t") = .ok wi)
  ∧ (∃ rd, conduct_research none "AI in Healthcare" (fun _ => .exn "boom") (.ok "s" "u" "t")
        = .ok rd ∧ rd.search_queries = search_queries "AI in Healthcare") := by
  obtain ⟨h1, h2, h3⟩ :=
    gatherer_degrades none "AI in Healthcare" (fun _ => .exn "boom") (.ok "s" "u" "t") rfl
  exact ⟨h1 "boom", h2, h3⟩

/-- C9: stage success and failure travel in-band in one string, and the
main block classifies a stage result as a failure exactly when it contains
the substring "Error": a transport-successful completion whose content
contains "Error" aborts the run at the report stage, aborts it at the
article stage, or causes the polish output to be discarded in favour of
the article (main.py lines 318, 350, 357 and 365). -/
theorem inband_error_classification (key : String) (serperKey : Option String) (mc : String)
    (completions : Nat → Transport) (topic language : String) (depth : Depth)
    (searchOutcomes : String → SearchOutcome) (wiki : WikiOutcome)
    (rd : ResearchData)
    (hkey : pyStartsWith key "gsk_" = true)
    (htest : pyContains (call_groq_api (some key) mc
      "Say \x27Connection test successful\x27" 20 (completions 0)) "Error" = false)
    (hres : conduct_research serperKey topic searchOutcomes wiki = .ok rd) :
    (∀ C txt em et rest rp,
      completions 1 = .resp ⟨200, txt, .value em et (some (.content C :: rest)) rp⟩ →
      pyContains C "Error" = true →
      (run (some key) serperKey mc completions topic language depth searchOutcomes wiki).1
        = .failedReport C)
  ∧ (∀ R A txt1 em1 et1 rest1 rp1 txt2 em2 et2 rest2 rp2,
      completions 1 = .resp ⟨200, txt1, .value em1 et1 (some (.content R :: rest1)) rp1⟩ →
      pyContains R "Error" = false →
      completions 2 = .resp ⟨200, txt2, .value em2 et2 (some (.content A :: rest2)) rp2⟩ →
      pyContains A "Error" = true →
      (run (some key) serperKey mc completions topic language depth searchOutcomes wiki).1
        = .failedArticle A)
  ∧ (∀ R A P txt1 em1 et1 rest1 rp1 txt2 em2 et2 rest2 rp2 txt3 em3 et3 rest3 rp3,
      completions 1 = .resp ⟨200, txt1, .value em1 et1 (some (.content R :: rest1)) rp1⟩ →
      pyContains R "Error" = false →
      completions 2 = .resp ⟨200, txt2, .value em2 et2 (some (.content A :: rest2)) rp2⟩ →
      pyContains A "Error" = false →
      completions 3 = .resp ⟨200, txt3, .value em3 et3 (some (.content P :: rest3)) rp3⟩ →
      pyContains P "Error" = true →
      (run (some key) serperKey mc completions topic language .Detailed searchOutcomes wiki).1
        = .done A R A) := by
  refine ⟨?_, ?_, ?_⟩
  · intro C txt em et rest rp hc hbad
    have hR : generate_research_report (some key) mc topic rd (completions 1) = C := by
      simp only [generate_research_report]
      rw [hc]
      exact call_groq_api_success key mc _ 2500 txt em et C rest rp hkey
    rw [run_report_failed key serperKey mc completions topic language depth searchOutcomes
      wiki rd C hkey htest hres hR hbad]
  · intro R A txt1 em1 et1 rest1 rp1 txt2 em2 et2 rest2 rp2 hc1 hRok hc2 hbad
    have hR : generate_research_report (some key) mc topic rd (completions 1) = R := by
      simp only [generate_research_report]
      rw [hc1]
      exact call_groq_api_success key mc _ 2500 txt1 em1 et1 R rest1 rp1 hkey
    have hA : generate_article (some key) mc topic language R depth (completions 2) = A := by
      simp only [generate_article]
      rw [hc2]
      exact call_groq_api_success key mc _ 3500 txt2 em2 et2 A rest2 rp2 hkey
    rw [run_article_failed key serperKey mc completions topic language depth searchOutcomes
      wiki rd R A hkey htest hres hR hRok hA hbad]
  · intro R A P txt1 em1 et1 rest1 rp1 txt2 em2 et2 rest2 rp2 txt3 em3 et3 rest3 rp3
      hc1 hRok hc2 hAok hc3 hbad
    have hR : generate_research_report (some key) mc topic rd (completions 1) = R := by
      simp only [generate_research_report]
      rw [hc1]
      exact call_groq_api_success key mc _ 2500 txt1 em1 et1 R rest1 rp1 hkey
    have hA : generate_article (some key) mc topic language R .Detailed (completions 2) = A := by
      simp only [generate_article]
      rw [hc2]
      exact call_groq_api_success key mc _ 3500 txt2 em2 et2 A rest2 rp2 hkey
    have hI : improve_article (some key) mc A topic language (completions 3) = P := by
      simp only [improve_article]
      rw [hc3]
      exact call_groq_api_success key mc _ 4000 txt3 em3 et3 P rest3 rp3 hkey
    rw [run_polish_failed key serperKey mc completions topic language searchOutcomes
      wiki rd R A P hkey htest hres hR hRok hA hAok hI hbad]

/-- Witness for `inband_error_classification`: transport-successful
completions whose content merely mentions "Error" abort the report stage,
abort the article stage, and get the polish output discarded. -/
theorem inband_error_classification_witness :
    (run (some "gsk_abc") none "llama-3.1-8b-instant"
        (mockCompletions (okTransport "Connection test successful")
          (okTransport "Error rates in diagnosis are falling")
          (okTransport "article text") (okTransport "polished"))
        "AI in Healthcare" "English" .Basic (fun _ => .exn "e") (.ok "s" "u" "t")).1
      = .failedReport "Error rates in diagnosis are falling"
  ∧ (run (some "gsk_abc") none "llama-3.1-8b-instant"
        (mockCompletions (okTransport "Connection test successful")
          (okTransport "report text")
          (okTransport "Error handling is a key theme") (okTransport "polished"))
        "AI in Healthcare" "English" .Basic (fun _ => .exn "e") (.ok "s" "u" "t")).1
      = .failedArticle "Error handling is a key theme"
  ∧ (run (some "gsk_abc") none "llama-3.1-8b-instant"
        (mockCompletions (okTransport "Connection test successful")
          (okTransport "report text")
          (okTransport "article text") (okTransport "Error analysis improved the text"))
        "AI in Healthcare" "English" .Detailed (fun _ => .exn "e") (.ok "s" "u" "t")).1
      = .done "article text" "report text" "article text" := by
  refine ⟨?_, ?_, ?_⟩
  · exact (inband_error_classification "gsk_abc" none "llama-3.1-8b-instant"
      (mockCompletions (okTransport "Connection test successful")
        (okTransport "Error rates in diagnosis are falling")
        (okTransport "article text") (okTransport "polished"))
      "AI in Healthcare" "English" .Basic (fun _ => .exn "e") (.ok "s" "u" "t")
      ⟨[], ⟨"s", "u", "t"⟩, search_queries "AI in Healthcare"⟩
      (by decide) (by decide) rfl).1
      "Error rates in diagnosis are falling" "" none none [] "" rfl (by decide)
  · exact (inband_error_classification "gsk_abc" none "llama-3.1-8b-instant"
      (mockCompletions (okTransport "Connection test successful")
        (okTransport "report text")
        (okTransport "Error handling is a key theme") (okTransport "polished"))
      "AI in Healthcare" "English" .Basic (fun _ => .exn "e") (.ok "s" "u" "t")
      ⟨[], ⟨"s", "u", "t"⟩, search_queries "AI in Healthcare"⟩
      (by decide) (by decide) rfl).2.1
      "report text" "Error handling is a key theme" "" none none [] "" "" none none [] ""
      rfl (by decide) rfl (by decide)
  · exact (inband_error_classification "gsk_abc" none "llama-3.1-8b-instant"
      (mockCompletions (okTransport "Connection test successful")
        (okTransport "report text")
        (okTransport "article text") (okTransport "Error analysis improved the text"))
      "AI in Healthcare" "English" .Detailed (fun _ => .exn "e") (.ok "s" "u" "t")
      ⟨[], ⟨"s", "u", "t"⟩, search_queries "AI in Healthcare"⟩
      (by decide) (by decide) rfl).2.2
      "report text" "article text" "Error analysis improved the text"
      "" none none [] "" "" none none [] "" "" none none [] ""
      rfl (by decide) rfl (by decide) rfl (by decide)

end ResearchAgent
